import Mathlib

/-!
Formal model of the Kamui session-manager core (Go sources under
`internal/claude`, `internal/storage`, `pkg/types` and the `session` manager
package), together with theorems about its behaviour.

Modelling conventions:
* Go strings are Lean `String`; Go `time.Time` values are modelled by their
  wall-clock reading as an `Int` (nanoseconds); the monotonic-clock component,
  which JSON serialization drops, is not modelled.
* JSON documents are modelled by the `Kamui.Json` AST.  Go's
  `encoding/json` object values (`map[string]interface` braces omitted) are
  modelled as association lists `List (String × Json)`; the inputs used in
  concrete theorems contain no duplicate keys, so first-match lookup agrees
  with Go's map semantics.
* Filesystem state relevant to the session store is modelled as an
  association list from session id to file content; `os.Rename` of the temp
  file onto the final path is modelled by its net effect (replacing the
  entry), since no theorem below concerns the intermediate temp-file state.
* Fallible Go functions returning `(T, error)` become `Except AGXError T`.
* External effects (running the claude binary, the monitor subprocess,
  symlink resolution, `os.Stat` on transcript files) are passed in as
  explicit parameters, so theorems quantify over every possible behaviour of
  those collaborators.
-/

namespace Kamui

/-- JSON value AST: the shape of documents produced and consumed by the Go
code through `encoding/json`. Numeric payloads are modelled as `Int`
(the modelled code never inspects numeric values). -/
inductive Json where
  | null
  | bool (b : Bool)
  | num (n : Int)
  | str (s : String)
  | arr (elems : List Json)
  | obj (fields : List (String × Json))

/-! ## TranscriptSanitizer (`internal/claude`: `cleanupInitMessage` and helpers)

The Go code reads the transcript line by line with `bufio.Scanner`
(`filterInitMessages`), decides for each line whether to keep it
(`shouldKeepLine` / `isInitMessage`), and rewrites the file with each kept
line followed by a newline (`writeCleanedSession`). -/

/-- Models `bufio.ScanLines` finishing step: a completed line drops one trailing
carriage return (`dropCR` in Go's bufio). The accumulator holds the line's
characters in reverse order. -/
def finishLine (acc : List Char) : String :=
  match acc with
  | '\r' :: rest => String.mk rest.reverse
  | _ => String.mk acc.reverse

/-- Split file content into lines the way `bufio.Scanner` with `ScanLines`
does: tokens are separated by a newline byte, each token drops one trailing
carriage return, and a final unterminated token is still produced (while a
trailing newline produces no empty final token). -/
def scanLinesChars : List Char → List Char → List String
  | [], [] => []
  | [], acc => [finishLine acc]
  | c :: rest, acc =>
    if c = '\n' then finishLine acc :: scanLinesChars rest []
    else scanLinesChars rest (c :: acc)

/-- Lines of a transcript file's content, per `bufio.Scanner`/`ScanLines`. -/
def scanLines (s : String) : List String :=
  scanLinesChars s.data []

/-- Models `writeCleanedSession`: the rewritten file content — every kept line is
written followed by a single newline. -/
def writeCleanedSession (cleanLines : List String) : String :=
  match cleanLines with
  | [] => ""
  | l :: rest => l ++ "\n" ++ writeCleanedSession rest

/-- Models `isInitMessage`: the parsed line is the injected sentinel if the nested
`message.content` field, or else the flat `content` field, is the exact
string `KAMUI_INIT_MESSAGE`. -/
def isInitMessage (message : List (String × Json)) : Bool :=
  (match List.lookup "message" message with
   | some (Json.obj messageData) =>
     match List.lookup "content" messageData with
     | some (Json.str content) => content = "KAMUI_INIT_MESSAGE"
     | _ => false
   | _ => false)
  ||
  (match List.lookup "content" message with
   | some (Json.str content) => content = "KAMUI_INIT_MESSAGE"
   | _ => false)

/-- Models `shouldKeepLine`: whether a raw line is kept, threading the
`foundInitMessage` flag explicitly (in Go it is a mutated `*bool`).
`parse` stands for `json.Unmarshal` of the line into a JSON object
(`nil` result = unparseable line). Returns (keep, updated flag). -/
def shouldKeepLine (parse : String → Option (List (String × Json)))
    (line : String) (foundInitMessage : Bool) : Bool × Bool :=
  match parse line with
  | none => (true, foundInitMessage)
  | some message =>
    match List.lookup "type" message with
    | some (Json.str messageType) =>
      if messageType ≠ "user" then (true, foundInitMessage)
      else if foundInitMessage then (true, foundInitMessage)
      else if isInitMessage message then (false, true)
      else (true, foundInitMessage)
    | _ => (true, foundInitMessage)

/-- The scan loop of `filterInitMessages`, threading `foundInitMessage`. -/
def filterInitMessagesGo (parse : String → Option (List (String × Json))) :
    List String → Bool → List String
  | [], _ => []
  | l :: ls, found =>
    let r := shouldKeepLine parse l found
    if r.1 then l :: filterInitMessagesGo parse ls r.2
    else filterInitMessagesGo parse ls r.2

/-- Models `filterInitMessages`: the kept lines of a transcript, in order. -/
def filterInitMessages (parse : String → Option (List (String × Json)))
    (lines : List String) : List String :=
  filterInitMessagesGo parse lines false

/-- Models `cleanupInitMessage` on an existing transcript file: the content written
back is the kept lines, each terminated by a newline. -/
def cleanupInitMessage (parse : String → Option (List (String × Json)))
    (content : String) : String :=
  writeCleanedSession (filterInitMessages parse (scanLines content))

/-- A line the sanitizer may remove: it parses as a JSON object, its `type`
field is the string `"user"`, and it is the exact sentinel message. This is
precisely the condition under which `shouldKeepLine` discards a line when
the sentinel has not been found yet. -/
def isRemovableLine (parse : String → Option (List (String × Json)))
    (line : String) : Bool :=
  match parse line with
  | none => false
  | some message =>
    match List.lookup "type" message with
    | some (Json.str messageType) => messageType = "user" && isInitMessage message
    | _ => false

/-! ## A concrete JSON parser

Models Go's `json.Unmarshal` into `map[string]interface` braces omitted, for
the JSON subset exercised by the concrete transcripts in this development:
objects, arrays, strings with the common escapes, integer numbers (fraction
and exponent parts are consumed but their value is ignored — the modelled
code never reads numeric payloads), `true`, `false`, `null`. Top level must
be an object with no trailing garbage, as `json.Unmarshal` into a map
requires. -/

/-- Skip JSON whitespace. -/
def skipWs : List Char → List Char
  | c :: rest =>
    if c = ' ' ∨ c = '\t' ∨ c = '\n' ∨ c = '\r' then skipWs rest else c :: rest
  | [] => []

/-- Parse the body of a JSON string literal (after the opening quote),
accumulating characters in reverse. -/
def parseStringBody : List Char → List Char → Option (String × List Char)
  | [], _ => none
  | c :: rest, acc =>
    if c = '"' then some (String.mk acc.reverse, rest)
    else if c = '\\' then
      match rest with
      | [] => none
      | e :: rest2 =>
        if e = '"' then parseStringBody rest2 ('"' :: acc)
        else if e = '\\' then parseStringBody rest2 ('\\' :: acc)
        else if e = '/' then parseStringBody rest2 ('/' :: acc)
        else if e = 'n' then parseStringBody rest2 ('\n' :: acc)
        else if e = 't' then parseStringBody rest2 ('\t' :: acc)
        else if e = 'r' then parseStringBody rest2 ('\r' :: acc)
        else none
    else parseStringBody rest (c :: acc)

/-- Consume a run of decimal digits, accumulating their value. -/
def takeDigits : List Char → Nat → Nat × List Char
  | c :: rest, acc =>
    if c.isDigit then takeDigits rest (acc * 10 + (c.toNat - 48))
    else (acc, c :: rest)
  | [], acc => (acc, [])

/-- Consume the fraction/exponent tail of a number without recording it. -/
def skipFracExp : List Char → List Char
  | c :: rest =>
    if c.isDigit ∨ c = '.' ∨ c = 'e' ∨ c = 'E' ∨ c = '+' ∨ c = '-' then
      skipFracExp rest
    else c :: rest
  | [] => []

/-- Parse a JSON number (integer value; fraction/exponent ignored). -/
def parseNum : List Char → Option (Json × List Char)
  | '-' :: c :: rest =>
    if c.isDigit then
      let p := takeDigits (c :: rest) 0
      some (Json.num (-(p.1 : Int)), skipFracExp p.2)
    else none
  | c :: rest =>
    if c.isDigit then
      let p := takeDigits (c :: rest) 0
      some (Json.num (p.1 : Int), skipFracExp p.2)
    else none
  | [] => none

mutual

/-- Parse one JSON value. `fuel` bounds recursion depth. -/
def parseVal : Nat → List Char → Option (Json × List Char)
  | 0, _ => none
  | Nat.succ fuel, cs =>
    match skipWs cs with
    | 'n' :: 'u' :: 'l' :: 'l' :: rest => some (Json.null, rest)
    | 't' :: 'r' :: 'u' :: 'e' :: rest => some (Json.bool true, rest)
    | 'f' :: 'a' :: 'l' :: 's' :: 'e' :: rest => some (Json.bool false, rest)
    | '"' :: rest =>
      match parseStringBody rest [] with
      | some (s, rest2) => some (Json.str s, rest2)
      | none => none
    | '[' :: rest => parseArr fuel rest []
    | '\x7b' :: rest => parseObjFields fuel rest []
    | cs2 => parseNum cs2

/-- Parse array elements (called after `[` or after a comma). -/
def parseArr : Nat → List Char → List Json → Option (Json × List Char)
  | 0, _, _ => none
  | Nat.succ fuel, cs, acc =>
    match skipWs cs with
    | ']' :: rest =>
      match acc with
      | [] => some (Json.arr [], rest)
      | _ => none
    | cs2 =>
      match parseVal fuel cs2 with
      | none => none
      | some (v, rest2) =>
        match skipWs rest2 with
        | ',' :: rest3 => parseArr fuel rest3 (v :: acc)
        | ']' :: rest3 => some (Json.arr (v :: acc).reverse, rest3)
        | _ => none

/-- Parse object members (called after the opening brace or after a comma). -/
def parseObjFields : Nat → List Char → List (String × Json) →
    Option (Json × List Char)
  | 0, _, _ => none
  | Nat.succ fuel, cs, acc =>
    match skipWs cs with
    | '\x7d' :: rest =>
      match acc with
      | [] => some (Json.obj [], rest)
      | _ => none
    | '"' :: rest =>
      match parseStringBody rest [] with
      | none => none
      | some (key, rest2) =>
        match skipWs rest2 with
        | ':' :: rest3 =>
          match parseVal fuel rest3 with
          | none => none
          | some (v, rest4) =>
            match skipWs rest4 with
            | ',' :: rest5 => parseObjFields fuel rest5 ((key, v) :: acc)
            | '\x7d' :: rest5 => some (Json.obj (((key, v) :: acc).reverse), rest5)
            | _ => none
        | _ => none
    | _ => none

end

/-- Models `json.Unmarshal` of one transcript line into a JSON object: the whole
line must parse as a single object with nothing but whitespace after it. -/
def jsonParseObj (s : String) : Option (List (String × Json)) :=
  match parseVal (s.length + 1) s.data with
  | some (Json.obj fields, rest) =>
    if (skipWs rest).isEmpty then some fields else none
  | _ => none

/-! ## Error taxonomy (`pkg/types/errors.go`)

`AGXError` is modelled by its code and message; the wrapped `Cause` carries
an external library/OS error value and is not modelled. -/

/-- The typed error returned throughout the Go code. -/
structure AGXError where
  code : String
  message : String
deriving DecidableEq

def ErrCodeSessionNotFound : String := "SESSION_NOT_FOUND"

def ErrCodeSessionCorrupted : String := "SESSION_CORRUPTED"

def ErrCodeStoragePermission : String := "STORAGE_PERMISSION"

def ErrCodeStorageCorrupted : String := "STORAGE_CORRUPTED"

def ErrCodeClaudeNotFound : String := "CLAUDE_NOT_FOUND"

def ErrCodeClaudeSessionNotFound : String := "CLAUDE_SESSION_NOT_FOUND"

def ErrCodeClaudeStartFailed : String := "CLAUDE_START_FAILED"

def ErrCodeClaudeCommandFailed : String := "CLAUDE_COMMAND_FAILED"

/-- Models `types.NewStorageError` (the `cause` argument is not modelled). -/
def NewStorageError (code message : String) : AGXError :=
  { code := code, message := message }

/-- Models `types.NewClaudeError` (the `cause` argument is not modelled). -/
def NewClaudeError (code message : String) : AGXError :=
  { code := code, message := message }

/-! ## ExternalLogScanner and SessionDiscoveryProtocol (`internal/claude`)

`DiscoverExistingSessions` lists transcript ids by scanning the encoded
project directory; its results enter the functions below as explicit
snapshot/tick parameters, so the theorems quantify over every possible
filesystem behaviour. -/

/-- The diff loop of `StartFreshAndDiscoverSessionID`: the first id in the
after-snapshot that does not occur in the before-snapshot, or `""` if every
id was already present. -/
def findNewSession (before : List String) : List String → String
  | [] => ""
  | s :: rest => if before.contains s then findNewSession before rest else s

/-- Models `StartFreshAndDiscoverSessionID` after the external `claude --print`
run: diff the snapshots; an empty diff result is a discovery failure;
otherwise `cleanupInitMessage` is attempted and its outcome
(`cleanupResult = some e` meaning it failed with `e`) is only logged —
the discovered id is returned either way. -/
def startFreshAndDiscover (before after : List String)
    (cleanupResult : Option AGXError) : Except AGXError String :=
  let newSessionID := findNewSession before after
  if newSessionID = "" then
    Except.error (NewClaudeError ErrCodeClaudeStartFailed
      "failed to discover new Claude session ID after creation")
  else
    match cleanupResult with
    | some _ => Except.ok newSessionID
    | none => Except.ok newSessionID

/-- The inner search of `monitorForSession`: the first id of one scan that
is not in the before-snapshot. -/
def firstNewSession (before after : List String) : Option String :=
  after.find? (fun s => !(before.contains s))

/-- Models `monitorForSession`: poll once per tick. Each list element is the
result of `DiscoverExistingSessions` at that tick (`none` = scan error,
which is retried); the list length is the number of ticks that fit in the
timeout budget, and exhausting it is the timeout failure. -/
def monitorForSession (before : List String) :
    List (Option (List String)) → Except AGXError String
  | [] =>
    Except.error (NewClaudeError ErrCodeClaudeStartFailed
      "timeout monitoring for Claude session creation")
  | none :: rest => monitorForSession before rest
  | some after :: rest =>
    match firstNewSession before after with
    | some sessionID => Except.ok sessionID
    | none => monitorForSession before rest

/-! ## Claude client (`internal/claude`: `Client.HasSession`) -/

/-- Claude's path encoding: every path separator becomes a dash. -/
def encodePath (p : String) : String :=
  p.replace "/" "-"

/-- Models `Client.HasSession`. `evalSymlinks` models `filepath.EvalSymlinks`
(`none` = resolution error, in which case the original path is used),
`userHomeDir` models `os.UserHomeDir`, and `fileExists` models `os.Stat`
succeeding on a path. -/
def hasSession (evalSymlinks : String → Option String)
    (userHomeDir : Except AGXError String)
    (fileExists : String → Bool)
    (sessionID workingDir : String) : Except AGXError Bool :=
  if sessionID = "" then Except.ok false
  else
    let canonicalPath :=
      match evalSymlinks workingDir with
      | some p => p
      | none => workingDir
    let encodedPath := encodePath canonicalPath
    match userHomeDir with
    | Except.error e => Except.error e
    | Except.ok homeDir =>
      Except.ok (fileExists
        (homeDir ++ "/.claude/projects/" ++ encodedPath ++ "/" ++ sessionID ++ ".jsonl"))

/-! ## Session data model (`pkg/types/session.go`)

Go `time.Time` values are modelled by their wall-clock nanosecond reading.
`CustomData` (`map[string]interface` braces omitted) is modelled as the JSON
value list it marshals to, which is exactly the "valid record" restriction:
values already in JSON form. -/

abbrev GoTime := Int

abbrev SessionState := String

def SessionStateActive : SessionState := "active"

def SessionStatePaused : SessionState := "paused"

def SessionStateCompleted : SessionState := "completed"

def SessionStateArchived : SessionState := "archived"

def SessionStateError : SessionState := "error"

structure ProjectInfo where
  name : String
  path : String
  workingDirectory : String
  gitBranch : String
  gitCommit : String
  gitRemote : String

structure ContextInfo where
  messageCount : Int
  estimatedTokens : Int
  lastCommand : String
  workingFiles : List String

structure ResumeInfo where
  canResume : Bool
  resumeCommand : String
  lastResumeAttempt : Option GoTime
  resumeErrors : List String

structure ClaudeInfo where
  sessionID : String
  conversationID : String
  modelUsed : String
  hasActiveContext : Bool
  lastInteraction : GoTime
  contextInfo : ContextInfo
  resumeInfo : ResumeInfo

structure SessionMeta where
  description : String
  tags : List String
  variant : String
  isDefault : Bool
  customData : List (String × Json)

structure SessionStats where
  sessionCount : Int
  totalDuration : String
  averageSessionLength : String
  lastSessionDuration : String
  mostActiveDay : String
  commandsExecuted : Int

structure StateChange where
  state : SessionState
  timestamp : GoTime
  reason : String

structure CleanupConfig where
  enabled : Bool
  inactiveThreshold : String
  lastCleanupCheck : GoTime

structure LifecycleInfo where
  state : SessionState
  stateHistory : List StateChange
  autoCleanup : CleanupConfig

structure Session where
  version : String
  sessionID : String
  created : GoTime
  lastAccessed : GoTime
  lastModified : GoTime
  project : ProjectInfo
  claude : ClaudeInfo
  metadata : SessionMeta
  stats : SessionStats
  lifecycle : LifecycleInfo

/-! Go zero values for the structures above (what a struct literal leaves
unset, and what `json.Unmarshal` leaves untouched for absent fields). -/

def zeroProjectInfo : ProjectInfo :=
  { name := "", path := "", workingDirectory := "", gitBranch := "",
    gitCommit := "", gitRemote := "" }

def zeroContextInfo : ContextInfo :=
  { messageCount := 0, estimatedTokens := 0, lastCommand := "",
    workingFiles := [] }

def zeroResumeInfo : ResumeInfo :=
  { canResume := false, resumeCommand := "", lastResumeAttempt := none,
    resumeErrors := [] }

def zeroClaudeInfo : ClaudeInfo :=
  { sessionID := "", conversationID := "", modelUsed := "",
    hasActiveContext := false, lastInteraction := 0,
    contextInfo := zeroContextInfo, resumeInfo := zeroResumeInfo }

def zeroSessionMeta : SessionMeta :=
  { description := "", tags := [], variant := "", isDefault := false,
    customData := [] }

def zeroSessionStats : SessionStats :=
  { sessionCount := 0, totalDuration := "", averageSessionLength := "",
    lastSessionDuration := "", mostActiveDay := "", commandsExecuted := 0 }

def zeroCleanupConfig : CleanupConfig :=
  { enabled := false, inactiveThreshold := "", lastCleanupCheck := 0 }

def zeroLifecycleInfo : LifecycleInfo :=
  { state := "", stateHistory := [], autoCleanup := zeroCleanupConfig }

/-! ## JSON marshalling of session records

`json.MarshalIndent` / `json.Unmarshal` restricted to the `Session` struct,
modelled at the level of the `Json` AST (the byte-level JSON syntax is the
external `encoding/json` library's concern).  The field keys are the struct
tags of `pkg/types/session.go`.  A `time.Time` is represented in the
document by its nanosecond wall-clock reading, which `RFC3339Nano`
serialization preserves exactly.  The decoders have `json.Unmarshal`'s
leniency: an absent field or JSON `null` leaves the Go zero value, and a
field of the wrong shape is an unmarshalling error (`none`). -/

def encodeStrList (xs : List String) : Json :=
  Json.arr (xs.map Json.str)

def encodeTime (t : GoTime) : Json :=
  Json.num t

def encodeOptTime : Option GoTime → Json
  | none => Json.null
  | some t => Json.num t

def encodeProjectInfo (p : ProjectInfo) : Json :=
  Json.obj [("name", Json.str p.name), ("path", Json.str p.path),
    ("workingDirectory", Json.str p.workingDirectory),
    ("gitBranch", Json.str p.gitBranch), ("gitCommit", Json.str p.gitCommit),
    ("gitRemote", Json.str p.gitRemote)]

def encodeContextInfo (c : ContextInfo) : Json :=
  Json.obj [("messageCount", Json.num c.messageCount),
    ("estimatedTokens", Json.num c.estimatedTokens),
    ("lastCommand", Json.str c.lastCommand),
    ("workingFiles", encodeStrList c.workingFiles)]

def encodeResumeInfo (r : ResumeInfo) : Json :=
  Json.obj [("canResume", Json.bool r.canResume),
    ("resumeCommand", Json.str r.resumeCommand),
    ("lastResumeAttempt", encodeOptTime r.lastResumeAttempt),
    ("resumeErrors", encodeStrList r.resumeErrors)]

def encodeClaudeInfo (c : ClaudeInfo) : Json :=
  Json.obj [("sessionId", Json.str c.sessionID),
    ("conversationId", Json.str c.conversationID),
    ("modelUsed", Json.str c.modelUsed),
    ("hasActiveContext", Json.bool c.hasActiveContext),
    ("lastInteraction", encodeTime c.lastInteraction),
    ("contextInfo", encodeContextInfo c.contextInfo),
    ("resumeInfo", encodeResumeInfo c.resumeInfo)]

def encodeSessionMeta (m : SessionMeta) : Json :=
  Json.obj [("description", Json.str m.description),
    ("tags", encodeStrList m.tags), ("variant", Json.str m.variant),
    ("isDefault", Json.bool m.isDefault),
    ("customData", Json.obj m.customData)]

def encodeSessionStats (s : SessionStats) : Json :=
  Json.obj [("sessionCount", Json.num s.sessionCount),
    ("totalDuration", Json.str s.totalDuration),
    ("averageSessionLength", Json.str s.averageSessionLength),
    ("lastSessionDuration", Json.str s.lastSessionDuration),
    ("mostActiveDay", Json.str s.mostActiveDay),
    ("commandsExecuted", Json.num s.commandsExecuted)]

def encodeStateChange (sc : StateChange) : Json :=
  Json.obj [("state", Json.str sc.state),
    ("timestamp", encodeTime sc.timestamp), ("reason", Json.str sc.reason)]

def encodeCleanupConfig (c : CleanupConfig) : Json :=
  Json.obj [("enabled", Json.bool c.enabled),
    ("inactiveThreshold", Json.str c.inactiveThreshold),
    ("lastCleanupCheck", encodeTime c.lastCleanupCheck)]

def encodeLifecycleInfo (l : LifecycleInfo) : Json :=
  Json.obj [("state", Json.str l.state),
    ("stateHistory", Json.arr (l.stateHistory.map encodeStateChange)),
    ("autoCleanup", encodeCleanupConfig l.autoCleanup)]

def encodeSession (s : Session) : Json :=
  Json.obj [("version", Json.str s.version),
    ("sessionId", Json.str s.sessionID),
    ("created", encodeTime s.created),
    ("lastAccessed", encodeTime s.lastAccessed),
    ("lastModified", encodeTime s.lastModified),
    ("project", encodeProjectInfo s.project),
    ("claude", encodeClaudeInfo s.claude),
    ("metadata", encodeSessionMeta s.metadata),
    ("statistics", encodeSessionStats s.stats),
    ("lifecycle", encodeLifecycleInfo s.lifecycle)]

def getField (fields : List (String × Json)) (key : String) : Option Json :=
  List.lookup key fields

def getStr (fields : List (String × Json)) (key : String) : Option String :=
  match getField fields key with
  | none => some ""
  | some Json.null => some ""
  | some (Json.str s) => some s
  | some _ => none

def getInt (fields : List (String × Json)) (key : String) : Option Int :=
  match getField fields key with
  | none => some 0
  | some Json.null => some 0
  | some (Json.num n) => some n
  | some _ => none

def getBool (fields : List (String × Json)) (key : String) : Option Bool :=
  match getField fields key with
  | none => some false
  | some Json.null => some false
  | some (Json.bool b) => some b
  | some _ => none

def getTime (fields : List (String × Json)) (key : String) : Option GoTime :=
  getInt fields key

def getOptTime (fields : List (String × Json)) (key : String) :
    Option (Option GoTime) :=
  match getField fields key with
  | none => some none
  | some Json.null => some none
  | some (Json.num n) => some (some n)
  | some _ => none

def decodeStrElems : List Json → Option (List String)
  | [] => some []
  | Json.str s :: rest => (decodeStrElems rest).map (fun t => s :: t)
  | _ => none

def getStrList (fields : List (String × Json)) (key : String) :
    Option (List String) :=
  match getField fields key with
  | none => some []
  | some Json.null => some []
  | some (Json.arr xs) => decodeStrElems xs
  | some _ => none

def getCustomData (fields : List (String × Json)) (key : String) :
    Option (List (String × Json)) :=
  match getField fields key with
  | none => some []
  | some Json.null => some []
  | some (Json.obj f) => some f
  | some _ => none

def decodeProjectInfoObj (f : List (String × Json)) : Option ProjectInfo := do
  let name ← getStr f "name"
  let path ← getStr f "path"
  let workingDirectory ← getStr f "workingDirectory"
  let gitBranch ← getStr f "gitBranch"
  let gitCommit ← getStr f "gitCommit"
  let gitRemote ← getStr f "gitRemote"
  some
    { name := name, path := path, workingDirectory := workingDirectory,
      gitBranch := gitBranch, gitCommit := gitCommit, gitRemote := gitRemote }

def decodeProjectInfo : Option Json → Option ProjectInfo
  | none => some zeroProjectInfo
  | some Json.null => some zeroProjectInfo
  | some (Json.obj f) => decodeProjectInfoObj f
  | some _ => none

def decodeContextInfoObj (f : List (String × Json)) : Option ContextInfo := do
  let messageCount ← getInt f "messageCount"
  let estimatedTokens ← getInt f "estimatedTokens"
  let lastCommand ← getStr f "lastCommand"
  let workingFiles ← getStrList f "workingFiles"
  some
    { messageCount := messageCount, estimatedTokens := estimatedTokens,
      lastCommand := lastCommand, workingFiles := workingFiles }

def decodeContextInfo : Option Json → Option ContextInfo
  | none => some zeroContextInfo
  | some Json.null => some zeroContextInfo
  | some (Json.obj f) => decodeContextInfoObj f
  | some _ => none

def decodeResumeInfoObj (f : List (String × Json)) : Option ResumeInfo := do
  let canResume ← getBool f "canResume"
  let resumeCommand ← getStr f "resumeCommand"
  let lastResumeAttempt ← getOptTime f "lastResumeAttempt"
  let resumeErrors ← getStrList f "resumeErrors"
  some
    { canResume := canResume, resumeCommand := resumeCommand,
      lastResumeAttempt := lastResumeAttempt, resumeErrors := resumeErrors }

def decodeResumeInfo : Option Json → Option ResumeInfo
  | none => some zeroResumeInfo
  | some Json.null => some zeroResumeInfo
  | some (Json.obj f) => decodeResumeInfoObj f
  | some _ => none

def decodeClaudeInfoObj (f : List (String × Json)) : Option ClaudeInfo := do
  let sessionID ← getStr f "sessionId"
  let conversationID ← getStr f "conversationId"
  let modelUsed ← getStr f "modelUsed"
  let hasActiveContext ← getBool f "hasActiveContext"
  let lastInteraction ← getTime f "lastInteraction"
  let contextInfo ← decodeContextInfo (getField f "contextInfo")
  let resumeInfo ← decodeResumeInfo (getField f "resumeInfo")
  some
    { sessionID := sessionID, conversationID := conversationID,
      modelUsed := modelUsed, hasActiveContext := hasActiveContext,
      lastInteraction := lastInteraction, contextInfo := contextInfo,
      resumeInfo := resumeInfo }

def decodeClaudeInfo : Option Json → Option ClaudeInfo
  | none => some zeroClaudeInfo
  | some Json.null => some zeroClaudeInfo
  | some (Json.obj f) => decodeClaudeInfoObj f
  | some _ => none

def decodeSessionMetaObj (f : List (String × Json)) : Option SessionMeta := do
  let description ← getStr f "description"
  let tags ← getStrList f "tags"
  let variant ← getStr f "variant"
  let isDefault ← getBool f "isDefault"
  let customData ← getCustomData f "customData"
  some
    { description := description, tags := tags, variant := variant,
      isDefault := isDefault, customData := customData }

def decodeSessionMeta : Option Json → Option SessionMeta
  | none => some zeroSessionMeta
  | some Json.null => some zeroSessionMeta
  | some (Json.obj f) => decodeSessionMetaObj f
  | some _ => none

def decodeSessionStatsObj (f : List (String × Json)) : Option SessionStats := do
  let sessionCount ← getInt f "sessionCount"
  let totalDuration ← getStr f "totalDuration"
  let averageSessionLength ← getStr f "averageSessionLength"
  let lastSessionDuration ← getStr f "lastSessionDuration"
  let mostActiveDay ← getStr f "mostActiveDay"
  let commandsExecuted ← getInt f "commandsExecuted"
  some
    { sessionCount := sessionCount, totalDuration := totalDuration,
      averageSessionLength := averageSessionLength,
      lastSessionDuration := lastSessionDuration,
      mostActiveDay := mostActiveDay, commandsExecuted := commandsExecuted }

def decodeSessionStats : Option Json → Option SessionStats
  | none => some zeroSessionStats
  | some Json.null => some zeroSessionStats
  | some (Json.obj f) => decodeSessionStatsObj f
  | some _ => none

def decodeStateChangeObj (f : List (String × Json)) : Option StateChange := do
  let state ← getStr f "state"
  let timestamp ← getTime f "timestamp"
  let reason ← getStr f "reason"
  some { state := state, timestamp := timestamp, reason := reason }

def decodeStateChangeElems : List Json → Option (List StateChange)
  | [] => some []
  | Json.obj f :: rest => do
    let sc ← decodeStateChangeObj f
    let tail ← decodeStateChangeElems rest
    some (sc :: tail)
  | _ => none

def getStateChanges (fields : List (String × Json)) (key : String) :
    Option (List StateChange) :=
  match getField fields key with
  | none => some []
  | some Json.null => some []
  | some (Json.arr xs) => decodeStateChangeElems xs
  | some _ => none

def decodeCleanupConfigObj (f : List (String × Json)) : Option CleanupConfig := do
  let enabled ← getBool f "enabled"
  let inactiveThreshold ← getStr f "inactiveThreshold"
  let lastCleanupCheck ← getTime f "lastCleanupCheck"
  some
    { enabled := enabled, inactiveThreshold := inactiveThreshold,
      lastCleanupCheck := lastCleanupCheck }

def decodeCleanupConfig : Option Json → Option CleanupConfig
  | none => some zeroCleanupConfig
  | some Json.null => some zeroCleanupConfig
  | some (Json.obj f) => decodeCleanupConfigObj f
  | some _ => none

def decodeLifecycleInfoObj (f : List (String × Json)) : Option LifecycleInfo := do
  let state ← getStr f "state"
  let stateHistory ← getStateChanges f "stateHistory"
  let autoCleanup ← decodeCleanupConfig (getField f "autoCleanup")
  some
    { state := state, stateHistory := stateHistory,
      autoCleanup := autoCleanup }

def decodeLifecycleInfo : Option Json → Option LifecycleInfo
  | none => some zeroLifecycleInfo
  | some Json.null => some zeroLifecycleInfo
  | some (Json.obj f) => decodeLifecycleInfoObj f
  | some _ => none

/-- Models `json.Unmarshal` of file bytes into a `types.Session`: the document must
be a JSON object, and every present field must have the right shape. -/
def decodeSession : Json → Option Session
  | Json.obj f => do
    let version ← getStr f "version"
    let sessionID ← getStr f "sessionId"
    let created ← getTime f "created"
    let lastAccessed ← getTime f "lastAccessed"
    let lastModified ← getTime f "lastModified"
    let project ← decodeProjectInfo (getField f "project")
    let claude ← decodeClaudeInfo (getField f "claude")
    let metadata ← decodeSessionMeta (getField f "metadata")
    let stats ← decodeSessionStats (getField f "statistics")
    let lifecycle ← decodeLifecycleInfo (getField f "lifecycle")
    some
      { version := version, sessionID := sessionID, created := created,
        lastAccessed := lastAccessed, lastModified := lastModified,
        project := project, claude := claude, metadata := metadata,
        stats := stats, lifecycle := lifecycle }
  | _ => none

/-! ## MetadataStore (`internal/storage/storage.go`)

The sessions directory is modelled as an association list from session id
to file content.  A file either holds a JSON document or bytes that do not
parse (`FileContent.invalid`), which lets corrupted files be represented.
`SaveSession`'s temp-file write followed by `os.Rename` is modelled by its
net effect: the entry for the id is replaced. -/

inductive FileContent where
  | invalid (raw : String)
  | doc (j : Json)

abbrev Store := List (String × FileContent)

def lookupFile (store : Store) (sessionID : String) : Option FileContent :=
  List.lookup sessionID store

def writeFile (store : Store) (sessionID : String) (content : FileContent) :
    Store :=
  (sessionID, content) :: store.filter (fun e => e.1 != sessionID)

/-- Models `Storage.SaveSession`: marshal the record (which always succeeds for the
modelled record type) and atomically replace the file named by the record's
own `SessionID`. -/
def saveSession (store : Store) (session : Session) : Store :=
  writeFile store session.sessionID (FileContent.doc (encodeSession session))

/-- Models `Storage.SessionExists`: `os.Stat` on the session file succeeds. -/
def sessionExists (store : Store) (sessionID : String) : Bool :=
  (lookupFile store sessionID).isSome

/-- Unmarshalling of a session file's bytes. -/
def decodeFile : FileContent → Option Session
  | FileContent.invalid _ => none
  | FileContent.doc j => decodeSession j

/-- Models `Storage.LoadSession`: `SESSION_NOT_FOUND` if the file does not exist,
`STORAGE_CORRUPTED` if its content does not unmarshal, otherwise the
record. -/
def loadSession (store : Store) (sessionID : String) : Except AGXError Session :=
  match lookupFile store sessionID with
  | none =>
    Except.error (NewStorageError ErrCodeSessionNotFound
      ("session '" ++ sessionID ++ "' not found"))
  | some content =>
    match decodeFile content with
    | none =>
      Except.error (NewStorageError ErrCodeStorageCorrupted
        "failed to parse session data")
    | some session => Except.ok session

/-- Models `Storage.CreateSession` (current `internal/storage/storage.go`): a
record with only version, id, timestamps, project paths and an empty Claude
session id set; every other field — including the whole `Lifecycle`
block — is left at its Go zero value. -/
def createSession (sessionID projectPath : String) (now : GoTime) : Session :=
  { version := "1.0.0", sessionID := sessionID, created := now,
    lastAccessed := now, lastModified := now,
    project :=
      { zeroProjectInfo with
        path := projectPath, workingDirectory := projectPath },
    claude := zeroClaudeInfo,
    metadata := zeroSessionMeta,
    stats := zeroSessionStats,
    lifecycle := zeroLifecycleInfo }

/-! ## SessionLifecycle (`session.Manager`) -/

/-- The external collaborators of `session.Manager`: the stored-session
existence check and the interactive launch (whose monitor subprocess may
rewrite the store; a launch yields either an error or the store it leaves
behind). -/
structure ClaudeEnv where
  hasSession : String → String → Except AGXError Bool
  launchClaudeInteractively : Store → String → String → Except AGXError Store

/-- Models `Manager.setupClaudeSession`: when starting fresh, launch claude
interactively (blocking), then try to reload the record to pick up the
Claude session id the monitor may have bound; a failed reload is ignored. -/
def setupClaudeSession (env : ClaudeEnv) (store : Store) (session : Session)
    (startFresh : Bool) : Except AGXError (Store × Session) :=
  if startFresh then
    match env.launchClaudeInteractively store session.project.workingDirectory
        session.sessionID with
    | Except.error e => Except.error e
    | Except.ok store2 =>
      match loadSession store2 session.sessionID with
      | Except.ok updated =>
        Except.ok (store2, { session with claude := updated.claude })
      | Except.error _ => Except.ok (store2, session)
  else Except.ok (store, session)

/-- Models `Manager.CreateOrResumeSession`: load or create the record, decide
whether a fresh Claude session is needed (no stored id, or the stored id's
existence check errors or reports false), set it up if so, refresh the
access timestamps and save.  `nowCreate`/`nowUpdate` are the two `time.Now`
readings.  Returns the saved store, the record and the
fresh-session flag. -/
def createOrResumeSession (env : ClaudeEnv) (store : Store)
    (projectPath sessionName : String) (nowCreate nowUpdate : GoTime) :
    Except AGXError (Store × Session × Bool) :=
  match
    (if sessionExists store sessionName then loadSession store sessionName
     else Except.ok (createSession sessionName projectPath nowCreate)) with
  | Except.error e => Except.error e
  | Except.ok session =>
    let shouldStartFreshClaude :=
      if session.claude.sessionID ≠ "" then
        match env.hasSession session.claude.sessionID
            session.project.workingDirectory with
        | Except.error _ => true
        | Except.ok b => !b
      else true
    match
      (if shouldStartFreshClaude then setupClaudeSession env store session true
       else Except.ok (store, session)) with
    | Except.error e => Except.error e
    | Except.ok (store2, session2) =>
      let session3 :=
        { session2 with
          lastAccessed := nowUpdate, lastModified := nowUpdate }
      Except.ok (saveSession store2 session3, session3, shouldStartFreshClaude)

/-- Models `Manager.CompleteSession`: load the record, set its state to Completed,
append one StateChange stamped with the record's current `LastModified`
and reason `"manually_completed"`, and save.  No check of the current
state is performed. -/
def completeSession (store : Store) (sessionName : String) :
    Except AGXError Store :=
  match loadSession store sessionName with
  | Except.error e => Except.error e
  | Except.ok session =>
    let updated := { session with lifecycle :=
      { session.lifecycle with
        state := SessionStateCompleted,
        stateHistory := session.lifecycle.stateHistory ++
          [{ state := SessionStateCompleted,
             timestamp := session.lastModified,
             reason := "manually_completed" }] } }
    Except.ok (saveSession store updated)

/-! ## Helper lemmas: sanitizer -/

theorem shouldKeepLine_found (parse : String → Option (List (String × Json)))
    (l : String) : shouldKeepLine parse l true = (true, true) := by
  unfold shouldKeepLine
  cases parse l with
  | none => rfl
  | some message =>
    dsimp only
    cases List.lookup "type" message with
    | none => rfl
    | some j =>
      cases j with
      | str s => by_cases hs : s = "user" <;> simp [hs]
      | null => rfl
      | bool b => rfl
      | num n => rfl
      | arr xs => rfl
      | obj f => rfl

theorem shouldKeepLine_not_found (parse : String → Option (List (String × Json)))
    (l : String) :
    shouldKeepLine parse l false =
      (!(isRemovableLine parse l), isRemovableLine parse l) := by
  unfold shouldKeepLine isRemovableLine
  cases parse l with
  | none => rfl
  | some message =>
    dsimp only
    cases List.lookup "type" message with
    | none => rfl
    | some j =>
      cases j with
      | str s =>
        by_cases hs : s = "user"
        · subst hs
          by_cases hi : isInitMessage message = true <;> simp [hi]
        · simp [hs]
      | null => rfl
      | bool b => rfl
      | num n => rfl
      | arr xs => rfl
      | obj f => rfl

theorem filterInitMessagesGo_found (parse : String → Option (List (String × Json)))
    (ls : List String) : filterInitMessagesGo parse ls true = ls := by
  induction ls with
  | nil => rfl
  | cons l ls ih => simp [filterInitMessagesGo, shouldKeepLine_found, ih]

theorem filterInitMessagesGo_no_removable
    (parse : String → Option (List (String × Json))) (ls : List String)
    (h : ∀ l ∈ ls, isRemovableLine parse l = false) :
    filterInitMessagesGo parse ls false = ls := by
  induction ls with
  | nil => rfl
  | cons l ls ih =>
    have hl : isRemovableLine parse l = false := h l (List.mem_cons_self l ls)
    simp [filterInitMessagesGo, shouldKeepLine_not_found, hl]
    exact ih (fun x hx => h x (List.mem_cons_of_mem l hx))

/-! ## Claim theorems: TranscriptSanitizer -/

/-- C1. For every transcript (any line parser `parse`, standing for
`json.Unmarshal`, and any list of raw lines), `filterInitMessages` removes
exactly the line at the first index whose line parses as a JSON object,
has `type` equal to the string `"user"`, and carries the exact sentinel
text in the nested or flat content field (`isRemovableLine`) — and nothing
else: every other line, parseable or not, sentinel-resembling or not, is
kept in its original relative order.  When no line is removable,
`List.findIdx` is out of range and `List.eraseIdx` keeps the list intact,
so no line is removed at all. -/
theorem filterInitMessages_removes_at_most_first_sentinel
    (parse : String → Option (List (String × Json))) (lines : List String) :
    filterInitMessages parse lines =
      lines.eraseIdx (lines.findIdx (isRemovableLine parse)) := by
  unfold filterInitMessages
  induction lines with
  | nil => rfl
  | cons l ls ih =>
    by_cases h : isRemovableLine parse l = true
    · simp [filterInitMessagesGo, shouldKeepLine_not_found, h,
        List.findIdx_cons, filterInitMessagesGo_found]
    · have h0 : isRemovableLine parse l = false := by
        cases hb : isRemovableLine parse l
        · rfl
        · exact absurd hb h
      simp [filterInitMessagesGo, shouldKeepLine_not_found, h0,
        List.findIdx_cons, ih]

/-- C6 (amended). For every transcript whose content is in canonical
line-oriented form (re-serializing its scanned lines reproduces it
byte-for-byte — i.e. every line is newline-terminated with no stray
carriage return) and which contains no removable sentinel line,
`cleanupInitMessage` leaves the content byte-for-byte unchanged; in
particular a second run on the already-sanitized content is a no-op.
(The canonical-form hypothesis is forced by the counterexample: the rewrite
step terminates every kept line with a newline, so content whose last line
is unterminated is normalized, not preserved byte-for-byte.) -/
theorem cleanupInitMessage_no_sentinel_noop
    (parse : String → Option (List (String × Json))) (content : String)
    (hcanon : writeCleanedSession (scanLines content) = content)
    (hno : ∀ l ∈ scanLines content, isRemovableLine parse l = false) :
    cleanupInitMessage parse content = content ∧
    cleanupInitMessage parse (cleanupInitMessage parse content) =
      cleanupInitMessage parse content := by
  have h1 : cleanupInitMessage parse content = content := by
    unfold cleanupInitMessage filterInitMessages
    rw [filterInitMessagesGo_no_removable parse _ hno, hcanon]
  exact ⟨h1, by rw [h1, h1]⟩

/-- C6 counterexample: the file content `"X"` contains no sentinel line,
yet `cleanupInitMessage` returns `"X\n"`, not `"X"` — the claim's
byte-for-byte preservation fails on content whose last line is not
newline-terminated. -/
theorem cleanupInitMessage_not_byte_identical :
    List.countP (isRemovableLine jsonParseObj) (scanLines "X") = 0 ∧
    cleanupInitMessage jsonParseObj "X" = "X\n" ∧
    cleanupInitMessage jsonParseObj "X" ≠ "X" :=
  ⟨by decide, by decide, by decide⟩

/-- Witness for the amended C6 theorem at a concrete two-line transcript
with a parseable non-sentinel line and an unparseable line. -/
theorem cleanupInitMessage_no_sentinel_noop_witness :
    writeCleanedSession
        (scanLines "\x7b\"type\":\"assistant\",\"content\":\"hi\"\x7d\nraw line\n") =
      "\x7b\"type\":\"assistant\",\"content\":\"hi\"\x7d\nraw line\n" ∧
    cleanupInitMessage jsonParseObj
        "\x7b\"type\":\"assistant\",\"content\":\"hi\"\x7d\nraw line\n" =
      "\x7b\"type\":\"assistant\",\"content\":\"hi\"\x7d\nraw line\n" :=
  ⟨by decide,
    (cleanupInitMessage_no_sentinel_noop jsonParseObj
      "\x7b\"type\":\"assistant\",\"content\":\"hi\"\x7d\nraw line\n"
      (by decide) (by decide)).1⟩

/-! ## Helper lemmas: discovery -/

theorem findNewSession_eq_find (before after : List String) :
    findNewSession before after =
      ((after.find? (fun s => !(before.contains s))).getD "") := by
  induction after with
  | nil => rfl
  | cons a rest ih =>
    rw [List.find?_cons]
    cases h : before.contains a
    · have hm : a ∉ before := by simpa using h
      simp [findNewSession, h, hm]
    · have hm : a ∈ before := by simpa using h
      simp [findNewSession, h, hm, ih]

/-- A tick on which the monitor keeps waiting: a scan error, or a scan
showing no id outside the before-snapshot. -/
def quietTick (before : List String) : Option (List String) → Bool
  | none => true
  | some after => (firstNewSession before after).isNone

theorem monitorForSession_quiet (before : List String)
    (quiet : List (Option (List String)))
    (hquiet : ∀ t ∈ quiet, quietTick before t = true) (rest : List (Option (List String))) :
    monitorForSession before (quiet ++ rest) = monitorForSession before rest := by
  induction quiet with
  | nil => rfl
  | cons t ts ih =>
    have ht : quietTick before t = true := hquiet t (List.mem_cons_self t ts)
    have hts : ∀ x ∈ ts, quietTick before x = true :=
      fun x hx => hquiet x (List.mem_cons_of_mem t hx)
    cases t with
    | none => simpa [monitorForSession] using ih hts
    | some after =>
      have hnone : firstNewSession before after = none := by
        have := ht
        unfold quietTick at this
        exact Option.isNone_iff_eq_none.mp this
      simpa [monitorForSession, hnone] using ih hts

/-! ## Claim theorems: SessionDiscoveryProtocol -/

/-- C2 counterexample: with `before = []` and `after = [""]` the set
difference `after − before` is non-empty (it contains the id `""`, which
the scanner produces for a transcript file named exactly `.jsonl`), yet
`StartFreshAndDiscoverSessionID` reports discovery failure instead of
returning that member, because the empty string doubles as its in-band
not-found marker. -/
theorem startFresh_empty_id_counterexample :
    ("" ∈ ([""] : List String)) ∧ ("" ∉ ([] : List String)) ∧
    startFreshAndDiscover [] [""] none =
      Except.error (NewClaudeError ErrCodeClaudeStartFailed
        "failed to discover new Claude session ID after creation") :=
  ⟨by decide, by decide, rfl⟩

/-- C2 (amended). Provided no id in the after-snapshot is the empty string
(the code's in-band failure marker), `StartFreshAndDiscoverSessionID`
returns the first id of the after-snapshot outside the before-snapshot —
a member of the set difference — whenever the difference is non-empty, and
fails with the discovery-failure error (code `CLAUDE_START_FAILED`, the
realization of the spec's DiscoveryFailed) when the difference is empty.
The cleanup outcome does not affect the result. -/
theorem startFresh_returns_first_new_id (before after : List String)
    (cleanupResult : Option AGXError) (hne : ∀ a ∈ after, a ≠ "") :
    ((∃ a ∈ after, a ∉ before) →
      (after.find? (fun s => !(before.contains s))).isSome = true) ∧
    (∀ id, after.find? (fun s => !(before.contains s)) = some id →
      startFreshAndDiscover before after cleanupResult = Except.ok id ∧
      id ∈ after ∧ id ∉ before) ∧
    ((∀ a ∈ after, a ∈ before) →
      startFreshAndDiscover before after cleanupResult =
        Except.error (NewClaudeError ErrCodeClaudeStartFailed
          "failed to discover new Claude session ID after creation")) := by
  refine ⟨?_, ?_, ?_⟩
  · rintro ⟨a, ha, hnb⟩
    rw [List.find?_isSome]
    exact ⟨a, ha, by simpa using hnb⟩
  · intro id hfind
    have hmem : id ∈ after := List.mem_of_find?_eq_some hfind
    have hpred : (!(before.contains id)) = true :=
      List.find?_some (p := fun s => !(before.contains s)) hfind
    have hnb : id ∉ before := by simpa using hpred
    have hid : findNewSession before after = id := by
      rw [findNewSession_eq_find, hfind]
      rfl
    have hne' : id ≠ "" := hne id hmem
    refine ⟨?_, hmem, hnb⟩
    unfold startFreshAndDiscover
    rw [hid]
    simp only [hne', if_false]
    cases cleanupResult <;> rfl
  · intro hall
    have hnone : after.find? (fun s => !(before.contains s)) = none := by
      rw [List.find?_eq_none]
      intro a ha
      simpa using hall a ha
    unfold startFreshAndDiscover
    rw [findNewSession_eq_find, hnone]
    rfl

/-- Witness for the amended C2 theorem: discovery returns the one new id,
and fails when the snapshots coincide. -/
theorem startFresh_returns_first_new_id_witness :
    startFreshAndDiscover ["a", "b"] ["a", "b", "c"] none = Except.ok "c" ∧
    startFreshAndDiscover ["a"] ["a"] none =
      Except.error (NewClaudeError ErrCodeClaudeStartFailed
        "failed to discover new Claude session ID after creation") :=
  ⟨((startFresh_returns_first_new_id ["a", "b"] ["a", "b", "c"] none
      (by decide)).2.1 "c" (by decide)).1,
   (startFresh_returns_first_new_id ["a"] ["a"] none
      (by decide)).2.2 (by decide)⟩

/-- C7. Polling-mode discovery (`monitorForSession`, with one list entry
per tick inside the timeout budget, `none` modelling a transient scan
failure): a failing scan just moves on to the next tick; if every tick in
the budget is quiet the operation fails with the timeout error and returns
no id; and as soon as some tick's scan shows an id outside the
before-snapshot, the first such id of that scan is returned. -/
theorem monitorForSession_spec (before : List String)
    (quiet : List (Option (List String)))
    (hquiet : ∀ t ∈ quiet, quietTick before t = true) :
    (∀ rest, monitorForSession before (none :: rest) =
      monitorForSession before rest) ∧
    monitorForSession before quiet =
      Except.error (NewClaudeError ErrCodeClaudeStartFailed
        "timeout monitoring for Claude session creation") ∧
    (∀ after rest id, firstNewSession before after = some id →
      monitorForSession before (quiet ++ some after :: rest) =
        Except.ok id) := by
  refine ⟨fun rest => rfl, ?_, ?_⟩
  · have := monitorForSession_quiet before quiet hquiet []
    simpa using this
  · intro after rest id hfind
    rw [monitorForSession_quiet before quiet hquiet (some after :: rest)]
    simp [monitorForSession, hfind]

/-- Witness for C7: one failed scan then one quiet scan exhaust the budget
(timeout); appending a tick that shows the new id `"b"` returns it. -/
theorem monitorForSession_spec_witness :
    monitorForSession ["a"] [none, some ["a"]] =
      Except.error (NewClaudeError ErrCodeClaudeStartFailed
        "timeout monitoring for Claude session creation") ∧
    monitorForSession ["a"] [none, some ["a"], some ["a", "b"]] =
      Except.ok "b" :=
  ⟨(monitorForSession_spec ["a"] [none, some ["a"]] (by decide)).2.1,
   (monitorForSession_spec ["a"] [none, some ["a"]] (by decide)).2.2
      ["a", "b"] [] "b" (by decide)⟩

/-- C8. Once a new transcript id has been discovered
(`findNewSession before after ≠ ""`), a failure of the sentinel-cleanup
step (`cleanupResult = some e`) does not fail the operation: the discovered
id is still returned, exactly as when cleanup succeeds. -/
theorem startFresh_cleanup_failure_swallowed (before after : List String)
    (e : AGXError) (h : findNewSession before after ≠ "") :
    startFreshAndDiscover before after (some e) =
      Except.ok (findNewSession before after) ∧
    startFreshAndDiscover before after (some e) =
      startFreshAndDiscover before after none := by
  unfold startFreshAndDiscover
  simp [h]

/-- Witness for C8 at a concrete discovery with a failing cleanup. -/
theorem startFresh_cleanup_failure_swallowed_witness :
    findNewSession [] ["c"] ≠ "" ∧
    startFreshAndDiscover [] ["c"]
        (some (NewStorageError ErrCodeStoragePermission "boom")) =
      Except.ok (findNewSession [] ["c"]) :=
  ⟨by decide,
   (startFresh_cleanup_failure_swallowed [] ["c"]
      (NewStorageError ErrCodeStoragePermission "boom") (by decide)).1⟩

/-! ## Claim theorems: Claude client -/

/-- C10. `Client.HasSession` called with an empty session id reports
"does not exist" without error, for every working directory and every
behaviour of the filesystem, symlink resolution and home-directory lookup
(in particular, the filesystem is never consulted: the result is the same
for every `fileExists`). -/
theorem hasSession_empty_id_false (evalSymlinks : String → Option String)
    (userHomeDir : Except AGXError String) (fileExists : String → Bool)
    (workingDir : String) :
    hasSession evalSymlinks userHomeDir fileExists "" workingDir =
      Except.ok false := by
  unfold hasSession
  simp

/-! ## Helper lemmas: marshalling roundtrip and store access -/

theorem decodeStrElems_encode (xs : List String) :
    decodeStrElems (xs.map Json.str) = some xs := by
  induction xs with
  | nil => rfl
  | cons x xs ih => simp [decodeStrElems, ih]

theorem decodeProjectInfo_encode (p : ProjectInfo) :
    decodeProjectInfo (some (encodeProjectInfo p)) = some p := by
  simp [decodeProjectInfo, encodeProjectInfo, decodeProjectInfoObj, getStr,
    getField, List.lookup]

theorem decodeContextInfo_encode (c : ContextInfo) :
    decodeContextInfo (some (encodeContextInfo c)) = some c := by
  simp [decodeContextInfo, encodeContextInfo, decodeContextInfoObj, getInt,
    getStr, getStrList, getField, List.lookup, encodeStrList,
    decodeStrElems_encode]

theorem decodeResumeInfo_encode (r : ResumeInfo) :
    decodeResumeInfo (some (encodeResumeInfo r)) = some r := by
  cases r with
  | mk canResume resumeCommand lastResumeAttempt resumeErrors =>
    cases lastResumeAttempt <;>
      simp [decodeResumeInfo, encodeResumeInfo, decodeResumeInfoObj, getBool,
        getStr, getOptTime, getStrList, getField, List.lookup, encodeStrList,
        encodeOptTime, decodeStrElems_encode]

theorem decodeClaudeInfo_encode (c : ClaudeInfo) :
    decodeClaudeInfo (some (encodeClaudeInfo c)) = some c := by
  simp [decodeClaudeInfo, encodeClaudeInfo, decodeClaudeInfoObj, getStr,
    getBool, getTime, getInt, getField, List.lookup, encodeTime,
    decodeContextInfo_encode, decodeResumeInfo_encode]

theorem decodeSessionMeta_encode (m : SessionMeta) :
    decodeSessionMeta (some (encodeSessionMeta m)) = some m := by
  simp [decodeSessionMeta, encodeSessionMeta, decodeSessionMetaObj, getStr,
    getBool, getStrList, getCustomData, getField, List.lookup, encodeStrList,
    decodeStrElems_encode]

theorem decodeSessionStats_encode (s : SessionStats) :
    decodeSessionStats (some (encodeSessionStats s)) = some s := by
  simp [decodeSessionStats, encodeSessionStats, decodeSessionStatsObj, getInt,
    getStr, getField, List.lookup]

theorem decodeStateChangeElems_encode (h : List StateChange) :
    decodeStateChangeElems (h.map encodeStateChange) = some h := by
  induction h with
  | nil => rfl
  | cons sc rest ih =>
    simp [encodeStateChange, decodeStateChangeElems, decodeStateChangeObj,
      getStr, getTime, getInt, getField, List.lookup, encodeTime, ih]

theorem decodeCleanupConfig_encode (c : CleanupConfig) :
    decodeCleanupConfig (some (encodeCleanupConfig c)) = some c := by
  simp [decodeCleanupConfig, encodeCleanupConfig, decodeCleanupConfigObj,
    getBool, getStr, getTime, getInt, getField, List.lookup, encodeTime]

theorem decodeLifecycleInfo_encode (l : LifecycleInfo) :
    decodeLifecycleInfo (some (encodeLifecycleInfo l)) = some l := by
  simp [decodeLifecycleInfo, encodeLifecycleInfo, decodeLifecycleInfoObj,
    getStr, getStateChanges, getField, List.lookup,
    decodeStateChangeElems_encode, decodeCleanupConfig_encode]

/-- Models `json.Unmarshal` is left-inverse to `json.MarshalIndent` on session
records. -/
theorem decodeSession_encodeSession (s : Session) :
    decodeSession (encodeSession s) = some s := by
  simp [decodeSession, encodeSession, getStr, getTime, getInt, getField,
    List.lookup, encodeTime, decodeProjectInfo_encode, decodeClaudeInfo_encode,
    decodeSessionMeta_encode, decodeSessionStats_encode,
    decodeLifecycleInfo_encode]

theorem lookupFile_writeFile_same (store : Store) (sessionID : String)
    (c : FileContent) :
    lookupFile (writeFile store sessionID c) sessionID = some c := by
  simp [lookupFile, writeFile, List.lookup]

theorem loadSession_saveSession (store : Store) (r : Session) :
    loadSession (saveSession store r) r.sessionID = Except.ok r := by
  unfold loadSession saveSession
  rw [lookupFile_writeFile_same]
  simp [decodeFile, decodeSession_encodeSession]

/-! ## Claim theorems: MetadataStore -/

/-- C3. Saving a session record and loading it back under its id yields the
record unchanged in every field (timestamps are modelled by the wall-clock
reading that `RFC3339Nano` serialization preserves exactly, so even the
truncation allowance is not needed). -/
theorem save_then_load_yields_record (store : Store) (r : Session) :
    loadSession (saveSession store r) r.sessionID = Except.ok r :=
  loadSession_saveSession store r

/-- C5 (amended). `LoadSession` fails with a `SESSION_NOT_FOUND` error when
no session file exists, fails with a `STORAGE_CORRUPTED` error — not
`SESSION_CORRUPTED`, as the counterexample shows — when the file exists but
its content does not deserialize, and otherwise returns the stored
record. -/
theorem loadSession_error_taxonomy (store : Store) (sessionID : String) :
    (lookupFile store sessionID = none →
      loadSession store sessionID =
        Except.error (NewStorageError ErrCodeSessionNotFound
          ("session '" ++ sessionID ++ "' not found"))) ∧
    (∀ content, lookupFile store sessionID = some content →
      decodeFile content = none →
      loadSession store sessionID =
        Except.error (NewStorageError ErrCodeStorageCorrupted
          "failed to parse session data")) ∧
    (∀ content r, lookupFile store sessionID = some content →
      decodeFile content = some r →
      loadSession store sessionID = Except.ok r) := by
  refine ⟨?_, ?_, ?_⟩
  · intro h
    unfold loadSession
    rw [h]
  · intro content h hdec
    unfold loadSession
    rw [h]
    dsimp only
    rw [hdec]
  · intro content r h hdec
    unfold loadSession
    rw [h]
    dsimp only
    rw [hdec]

/-- C5 counterexample: on a file whose bytes do not deserialize, the error
code actually returned is `STORAGE_CORRUPTED`, which is a different code of
the taxonomy than the `SESSION_CORRUPTED` the claim names. -/
theorem loadSession_corrupted_code_mismatch :
    loadSession [("bad", FileContent.invalid "not json")] "bad" =
      Except.error (NewStorageError ErrCodeStorageCorrupted
        "failed to parse session data") ∧
    ErrCodeStorageCorrupted ≠ ErrCodeSessionCorrupted :=
  ⟨rfl, by decide⟩

/-- Witness for the amended C5 theorem: the three branches at concrete
stores — a missing id, a corrupted file, and a well-formed record. -/
theorem loadSession_error_taxonomy_witness :
    loadSession [] "zz" =
      Except.error (NewStorageError ErrCodeSessionNotFound
        "session 'zz' not found") ∧
    loadSession [("bad", FileContent.invalid "oops")] "bad" =
      Except.error (NewStorageError ErrCodeStorageCorrupted
        "failed to parse session data") ∧
    loadSession (saveSession [] (createSession "demo" "/p" 0)) "demo" =
      Except.ok (createSession "demo" "/p" 0) :=
  ⟨(loadSession_error_taxonomy [] "zz").1 rfl,
   (loadSession_error_taxonomy [("bad", FileContent.invalid "oops")] "bad").2.1
      (FileContent.invalid "oops") rfl rfl,
   (loadSession_error_taxonomy (saveSession [] (createSession "demo" "/p" 0))
      "demo").2.2 (FileContent.doc (encodeSession (createSession "demo" "/p" 0)))
      (createSession "demo" "/p" 0) rfl rfl⟩

/-! ## Claim theorems: SessionLifecycle -/

/-- The record `CreateOrResumeSession` builds and persists for an id with
no existing record: `CreateSession`'s minimal record with the two access
timestamps refreshed. -/
def freshRecord (sessionName projectPath : String)
    (nowCreate nowUpdate : GoTime) : Session :=
  { createSession sessionName projectPath nowCreate with
    lastAccessed := nowUpdate, lastModified := nowUpdate }

/-- C4 (what the code actually does at the claim's input). For an id with
no existing record, when the interactive launch succeeds and binds nothing
(`hlaunch` leaves the store unchanged), `CreateOrResumeSession` creates and
persists a record whose `externalSessionId` is empty — but whose
`lifecycleState` is the Go zero value `""`, not Active, and whose
`stateHistory` is empty rather than holding one creation entry: the current
`CreateSession` never initializes the `Lifecycle` block. -/
theorem createOrResume_fresh_id_record (env : ClaudeEnv) (store : Store)
    (projectPath sessionName : String) (nowCreate nowUpdate : GoTime)
    (hno : sessionExists store sessionName = false)
    (hlaunch : env.launchClaudeInteractively store projectPath sessionName =
      Except.ok store) :
    createOrResumeSession env store projectPath sessionName nowCreate nowUpdate =
      Except.ok
        (saveSession store (freshRecord sessionName projectPath nowCreate nowUpdate),
          freshRecord sessionName projectPath nowCreate nowUpdate, true) ∧
    (freshRecord sessionName projectPath nowCreate nowUpdate).claude.sessionID
      = "" ∧
    (freshRecord sessionName projectPath nowCreate nowUpdate).lifecycle.state
      = "" ∧
    (freshRecord sessionName projectPath nowCreate nowUpdate).lifecycle.state
      ≠ SessionStateActive ∧
    (freshRecord sessionName projectPath nowCreate nowUpdate).lifecycle.stateHistory
      = [] ∧
    loadSession
        (saveSession store (freshRecord sessionName projectPath nowCreate nowUpdate))
        sessionName =
      Except.ok (freshRecord sessionName projectPath nowCreate nowUpdate) := by
  have hlk : lookupFile store sessionName = none := by
    unfold sessionExists at hno
    cases h : lookupFile store sessionName with
    | none => rfl
    | some c => rw [h] at hno; simp at hno
  have hload : loadSession store sessionName =
      Except.error (NewStorageError ErrCodeSessionNotFound
        ("session '" ++ sessionName ++ "' not found")) := by
    unfold loadSession
    rw [hlk]
  have hsetup : setupClaudeSession env store
      (createSession sessionName projectPath nowCreate) true =
      Except.ok (store, createSession sessionName projectPath nowCreate) := by
    unfold setupClaudeSession
    rw [if_pos rfl]
    rw [show (createSession sessionName projectPath nowCreate).project.workingDirectory
        = projectPath from rfl,
      show (createSession sessionName projectPath nowCreate).sessionID
        = sessionName from rfl,
      hlaunch]
    dsimp only
    rw [hload]
  refine ⟨?_, rfl, rfl, ?_, rfl, ?_⟩
  · unfold createOrResumeSession
    rw [hno]
    dsimp only
    simp only [Bool.false_eq_true, if_false]
    rw [show (createSession sessionName projectPath nowCreate).claude.sessionID
        = "" from rfl]
    simp only [ne_eq, not_true_eq_false, if_false, if_true]
    rw [hsetup]
    rfl
  · show ("" : String) ≠ SessionStateActive
    decide
  · exact loadSession_saveSession store
      (freshRecord sessionName projectPath nowCreate nowUpdate)

/-- The collaborator used in the C4 witness: no stored transcript ever
exists and the interactive launch succeeds leaving the store untouched. -/
def idleClaudeEnv : ClaudeEnv :=
  { hasSession := fun _ _ => Except.ok false,
    launchClaudeInteractively := fun st _ _ => Except.ok st }

/-- Witness for the C4 theorem at the spec's own example: fresh id
`"Tasks"` on an empty store. -/
theorem createOrResume_fresh_id_record_witness :
    sessionExists [] "Tasks" = false ∧
    createOrResumeSession idleClaudeEnv [] "/p" "Tasks" 0 1 =
      Except.ok (saveSession [] (freshRecord "Tasks" "/p" 0 1),
        freshRecord "Tasks" "/p" 0 1, true) ∧
    (freshRecord "Tasks" "/p" 0 1).lifecycle.state = "" ∧
    (freshRecord "Tasks" "/p" 0 1).lifecycle.stateHistory = [] :=
  ⟨rfl,
   (createOrResume_fresh_id_record idleClaudeEnv [] "/p" "Tasks" 0 1 rfl rfl).1,
   (createOrResume_fresh_id_record idleClaudeEnv [] "/p" "Tasks" 0 1 rfl rfl).2.2.1,
   (createOrResume_fresh_id_record idleClaudeEnv [] "/p" "Tasks" 0 1 rfl rfl).2.2.2.2.1⟩

/-- C9 (amended). `CompleteSession` on any loadable record — whatever its
current state — sets the state to Completed and appends exactly one
`StateChange` entry, with state Completed, reason `"manually_completed"`
and the record's current `LastModified` as timestamp; all existing history
entries are preserved unchanged as a prefix.  (The claim's restriction of
the transition to Active/Paused records is not enforced anywhere: see the
counterexample, which completes an Archived record.) -/
theorem completeSession_appends_completed (store : Store)
    (sessionName : String) (session : Session)
    (h : loadSession store sessionName = Except.ok session) :
    completeSession store sessionName =
      Except.ok (saveSession store
        { session with lifecycle :=
          { session.lifecycle with
            state := SessionStateCompleted,
            stateHistory := session.lifecycle.stateHistory ++
              [{ state := SessionStateCompleted,
                 timestamp := session.lastModified,
                 reason := "manually_completed" }] } }) := by
  unfold completeSession
  rw [h]

/-- A persisted record in the Archived state, together with its store. -/
def archivedSession : Session :=
  { createSession "arch" "/p" 0 with
    lifecycle :=
      { state := SessionStateArchived,
        stateHistory :=
          [{ state := SessionStateArchived, timestamp := 0, reason := "archived" }],
        autoCleanup := zeroCleanupConfig } }

def archStore : Store := saveSession [] archivedSession

/-- What `CompleteSession` persists for `archivedSession`. -/
def archivedCompleted : Session :=
  { archivedSession with
    lifecycle :=
      { state := SessionStateCompleted,
        stateHistory :=
          [{ state := SessionStateArchived, timestamp := 0, reason := "archived" },
           { state := SessionStateCompleted, timestamp := 0, reason := "manually_completed" }],
        autoCleanup := zeroCleanupConfig } }

/-- C9 counterexample: a record in the Archived state — neither Active nor
Paused — is transitioned to Completed by `CompleteSession` without any
guard, contradicting the claim that such a record is never transitioned. -/
theorem completeSession_no_state_guard :
    archivedSession.lifecycle.state = SessionStateArchived ∧
    SessionStateArchived ≠ SessionStateActive ∧
    SessionStateArchived ≠ SessionStatePaused ∧
    completeSession archStore "arch" =
      Except.ok (saveSession archStore archivedCompleted) ∧
    archivedCompleted.lifecycle.state = SessionStateCompleted :=
  ⟨by rfl, by decide, by decide, by rfl, by rfl⟩

/-- Witness for the amended C9 theorem at the archived record. -/
theorem completeSession_appends_completed_witness :
    completeSession archStore "arch" =
      Except.ok (saveSession archStore
        { archivedSession with lifecycle :=
          { archivedSession.lifecycle with
            state := SessionStateCompleted,
            stateHistory := archivedSession.lifecycle.stateHistory ++
              [{ state := SessionStateCompleted,
                 timestamp := archivedSession.lastModified,
                 reason := "manually_completed" }] } }) :=
  completeSession_appends_completed archStore "arch" archivedSession (by rfl)

end Kamui
